import Mathlib

/-!
Verification of the `gst-client` GStreamer Daemon HTTP client.

The development shallowly embeds the two source files:
  * `src/gstd_types.rs` — the wire data model (`Response`, `ResponseCode`,
    `ResponseT`, `Properties`, `Property`, `PropertyValue`, `Bus`, `Node`,
    `Param`) together with the serde deserialization semantics that the
    `#[derive(Deserialize)]`, `#[serde(untagged)]`, `#[serde(default)]` and
    `Deserialize_repr` attributes give those types;
  * `src/client.rs` — `GstClient` construction (`build`, `Default`,
    `From<Url>`) and the response-processing pipeline `process_resp`.

JSON documents are embedded as an inductive `Json` value (numbers as
integers, which suffices for every field of this wire model), and each
serde decoder becomes a total function `Json → Option _`.  The external
`url` crate is modelled abstractly (see `Url` below); the external HTTP
transport is modelled by `HttpResp`, a status code plus an optionally
JSON-parsable body.
-/

/-- A JSON value.  Numbers are modelled as unbounded integers; the wire
model at hand only ever decodes integer-typed numbers (`i64`, `u8`). -/
inductive Json where
  | null : Json
  | bool (b : Bool) : Json
  | num (n : Int) : Json
  | str (s : String) : Json
  | arr (elems : List Json) : Json
  | obj (fields : List (String × Json)) : Json

/-- Association lookup of a field in a JSON object, first match wins
(serde_json ignores unknown fields and our inputs carry no duplicates). -/
def jsonLookup (k : String) : List (String × Json) → Option Json
  | [] => none
  | (k', v) :: rest => if k' = k then some v else jsonLookup k rest

/-- `ResponseCode` from `src/gstd_types.rs`: the closed enumeration of the
19 GStreamer Daemon status codes, serialized via `serde_repr` as `u8`. -/
inductive ResponseCode where
  | Success
  | NullArgument
  | BadDescription
  | ExistingName
  | MissingInitialization
  | NoPipeline
  | NoResource
  | NoCreate
  | ExistingResource
  | NoUpdate
  | BadCommand
  | NoRead
  | NoConnection
  | BadValue
  | StateError
  | IpcError
  | EventError
  | MissingArgument
  | MissingName
deriving DecidableEq, Repr

/-- The discrete `u8` value of each `ResponseCode` (the `= 0`, `= 1`, …
discriminants in the Rust `#[repr(u8)]` enum). -/
def ResponseCode.toNat : ResponseCode → Nat
  | .Success => 0
  | .NullArgument => 1
  | .BadDescription => 2
  | .ExistingName => 3
  | .MissingInitialization => 4
  | .NoPipeline => 5
  | .NoResource => 6
  | .NoCreate => 7
  | .ExistingResource => 8
  | .NoUpdate => 9
  | .BadCommand => 10
  | .NoRead => 11
  | .NoConnection => 12
  | .BadValue => 13
  | .StateError => 14
  | .IpcError => 15
  | .EventError => 16
  | .MissingArgument => 17
  | .MissingName => 18

/-- Partial inverse of `ResponseCode.toNat`: `Deserialize_repr` accepts
exactly the listed discriminants and rejects every other number. -/
def ResponseCode.ofNat? : Nat → Option ResponseCode
  | 0 => some .Success
  | 1 => some .NullArgument
  | 2 => some .BadDescription
  | 3 => some .ExistingName
  | 4 => some .MissingInitialization
  | 5 => some .NoPipeline
  | 6 => some .NoResource
  | 7 => some .NoCreate
  | 8 => some .ExistingResource
  | 9 => some .NoUpdate
  | 10 => some .BadCommand
  | 11 => some .NoRead
  | 12 => some .NoConnection
  | 13 => some .BadValue
  | 14 => some .StateError
  | 15 => some .IpcError
  | 16 => some .EventError
  | 17 => some .MissingArgument
  | 18 => some .MissingName
  | _ => none

/-- `Bus` payload from `src/gstd_types.rs`: a bus message with six
required fields. -/
structure Bus where
  type : String
  source : String
  timestamp : String
  seqnum : Int
  message : String
  debug : String
deriving DecidableEq, Repr

/-- `Param` from `src/gstd_types.rs`: property descriptor. -/
structure Param where
  description : String
  type : String
  access : String
deriving DecidableEq, Repr

/-- `PropertyValue` from `src/gstd_types.rs`: the loosely-typed value of
an element property, an `#[serde(untagged)]` union of the three shapes
`String`, `Integer` (`i64`) and `Bool`, in that declaration order. -/
inductive PropertyValue where
  | string (s : String)
  | integer (n : Int)
  | bool (b : Bool)
deriving DecidableEq, Repr

/-- `Property` from `src/gstd_types.rs`. -/
structure Property where
  name : String
  value : PropertyValue
  param : Param
deriving DecidableEq, Repr

/-- `Node` from `src/gstd_types.rs`: a name-only reference. -/
structure Node where
  name : String
deriving DecidableEq, Repr

/-- `Properties` from `src/gstd_types.rs`: `properties` is required,
`nodes` carries `#[serde(default)]` and so defaults to the empty list. -/
structure Properties where
  properties : List Property
  nodes : List Node
deriving DecidableEq, Repr

/-- `ResponseT` from `src/gstd_types.rs`: the `#[serde(untagged)]`
payload union, declared in the order `Bus(Option<Bus>)`, `Properties`,
`Property`. -/
inductive ResponseT where
  | bus (b : Option Bus)
  | properties (p : Properties)
  | property (p : Property)
deriving DecidableEq, Repr

/-- `Response` from `src/gstd_types.rs`: the wire envelope with the three
required fields `code`, `description`, `response`. -/
structure Response where
  code : ResponseCode
  description : String
  response : ResponseT
deriving DecidableEq, Repr

/-! ### serde decoding semantics

Each `Json → Option _` function below is the shallow embedding of the
serde `Deserialize` implementation that the derives in
`src/gstd_types.rs` generate: structs demand their non-`default` fields
and ignore unknown ones; `#[serde(untagged)]` unions try their variants
in declaration order and accept the first that matches; `Option<T>`
decodes JSON `null` as `None`. -/

/-- Decode a JSON string. -/
def decodeString : Json → Option String
  | .str s => some s
  | _ => none

/-- Decode a JSON boolean. -/
def decodeBool : Json → Option Bool
  | .bool b => some b
  | _ => none

/-- Decode an `i64`: an integral JSON number within the `i64` range. -/
def decodeI64 : Json → Option Int
  | .num n => if -(2 ^ 63) ≤ n ∧ n < 2 ^ 63 then some n else none
  | _ => none

/-- Decode a `ResponseCode` (`serde_repr`, `#[repr(u8)]`): a number equal
to one of the 19 discriminants. -/
def decodeResponseCode : Json → Option ResponseCode
  | .num (Int.ofNat n) => ResponseCode.ofNat? n
  | _ => none

/-- Decode every element of a JSON array with the given element decoder,
failing if any element fails. -/
def decodeList (d : Json → Option α) : List Json → Option (List α)
  | [] => some []
  | j :: js => do
    let x ← d j
    let xs ← decodeList d js
    pure (x :: xs)

/-- Decode a `Vec<_>`: a JSON array of decodable elements. -/
def decodeArray (d : Json → Option α) : Json → Option (List α)
  | .arr js => decodeList d js
  | _ => none

/-- Decode a `Bus` struct: all six fields required. -/
def decodeBus : Json → Option Bus
  | .obj fields => do
    let ty ← (jsonLookup "type" fields).bind decodeString
    let src ← (jsonLookup "source" fields).bind decodeString
    let ts ← (jsonLookup "timestamp" fields).bind decodeString
    let sq ← (jsonLookup "seqnum" fields).bind decodeI64
    let msg ← (jsonLookup "message" fields).bind decodeString
    let dbg ← (jsonLookup "debug" fields).bind decodeString
    pure ⟨ty, src, ts, sq, msg, dbg⟩
  | _ => none

/-- Decode an `Option<Bus>`: JSON `null` is `None` ("no message
available"), anything else must be a full `Bus` object. -/
def decodeOptionBus : Json → Option (Option Bus)
  | .null => some none
  | j => (decodeBus j).map some

/-- Decode a `Param` struct (the Rust field `r#type` is the JSON key
`type`). -/
def decodeParam : Json → Option Param
  | .obj fields => do
    let d ← (jsonLookup "description" fields).bind decodeString
    let ty ← (jsonLookup "type" fields).bind decodeString
    let ac ← (jsonLookup "access" fields).bind decodeString
    pure ⟨d, ty, ac⟩
  | _ => none

/-- Decode a `PropertyValue` (`#[serde(untagged)]`): try `String`, then
`Integer`, then `Bool`, in declaration order, first match wins. -/
def decodePropertyValue (j : Json) : Option PropertyValue :=
  match decodeString j with
  | some s => some (.string s)
  | none =>
    match decodeI64 j with
    | some n => some (.integer n)
    | none => (decodeBool j).map .bool

/-- Decode a `Property` struct: all three fields required. -/
def decodeProperty : Json → Option Property
  | .obj fields => do
    let n ← (jsonLookup "name" fields).bind decodeString
    let v ← (jsonLookup "value" fields).bind decodePropertyValue
    let p ← (jsonLookup "param" fields).bind decodeParam
    pure ⟨n, v, p⟩
  | _ => none

/-- Decode a `Node` struct: the single field `name` is required. -/
def decodeNode : Json → Option Node
  | .obj fields => do
    let n ← (jsonLookup "name" fields).bind decodeString
    pure ⟨n⟩
  | _ => none

/-- Decode a `Properties` struct: `properties` is required; `nodes`
carries `#[serde(default)]`, so an absent `nodes` field yields `[]`
while a present but ill-typed one is an error. -/
def decodeProperties : Json → Option Properties
  | .obj fields => do
    let props ← (jsonLookup "properties" fields).bind (decodeArray decodeProperty)
    let nodes ←
      match jsonLookup "nodes" fields with
      | some j => decodeArray decodeNode j
      | none => some []
    pure ⟨props, nodes⟩
  | _ => none

/-- Decode a `ResponseT` (`#[serde(untagged)]`): try the variants in
declaration order — `Bus(Option<Bus>)` (including the `null` sub-case),
then `Properties`, then `Property` — accepting the first match. -/
def decodeResponseT (j : Json) : Option ResponseT :=
  match decodeOptionBus j with
  | some b => some (.bus b)
  | none =>
    match decodeProperties j with
    | some p => some (.properties p)
    | none => (decodeProperty j).map .property

/-- Decode the `Response` envelope: all three fields required. -/
def decodeResponse : Json → Option Response
  | .obj fields => do
    let c ← (jsonLookup "code" fields).bind decodeResponseCode
    let d ← (jsonLookup "description" fields).bind decodeString
    let r ← (jsonLookup "response" fields).bind decodeResponseT
    pure ⟨c, d, r⟩
  | _ => none

/-! ### The external `url` crate, modelled abstractly

`src/client.rs` stores a `url::Url` parsed by `Url::parse` and renders it
back with `Display`/`as_str`.  The crate is external to this repository,
so it is modelled abstractly: a `Url` is a string that satisfies a
well-formedness check (a nonempty alphabetic scheme, the `://` separator,
and a nonempty remainder, mirroring the crate's demand for an absolute
URL with a scheme), `Url.parse` succeeds exactly on well-formed strings,
and `Url.render` is the stored normalized text. -/

/-- Split a character list at the first occurrence of the `://` scheme
separator, returning the parts before and after it. -/
def splitScheme : List Char → Option (List Char × List Char)
  | [] => none
  | ':' :: '/' :: '/' :: rest => some ([], rest)
  | c :: rest => (splitScheme rest).map (fun p => (c :: p.1, p.2))

/-- A base-address string is well-formed when it is `scheme://rest` with
a nonempty all-alphabetic scheme and a nonempty remainder. -/
def wellFormedUrl (s : String) : Bool :=
  match splitScheme s.toList with
  | some (scheme, rest) =>
    !scheme.isEmpty && scheme.all Char.isAlpha && !rest.isEmpty
  | none => false

/-- A parsed, normalized URL: the model keeps the normalized text with
its well-formedness certificate. -/
def Url := { s : String // wellFormedUrl s = true }

instance : DecidableEq Url := Subtype.instDecidableEq

/-- `Url::parse`: succeeds exactly on well-formed base-address strings. -/
def Url.parse (s : String) : Option Url :=
  if h : wellFormedUrl s = true then some ⟨s, h⟩ else none

/-- Rendering a `Url` back to text (`Url::as_str` / `Display`). -/
def Url.render (u : Url) : String := u.val

/-- The `scheme://`-stripped authority part of a `Url` (up to the first
`/`). -/
def Url.hostPort (u : Url) : List Char :=
  match splitScheme u.val.toList with
  | some (_, rest) => rest.takeWhile (fun c => c != '/')
  | none => []

/-- The host of a `Url` (authority before any `:port`). -/
def Url.host (u : Url) : String :=
  ⟨u.hostPort.takeWhile (fun c => c != ':')⟩

/-- Decimal digits to a natural number. -/
def digitsToNat (ds : List Char) : Nat :=
  ds.foldl (fun n c => 10 * n + (c.toNat - 48)) 0

/-- The explicit port of a `Url`, when one is present. -/
def Url.port (u : Url) : Option Nat :=
  match u.hostPort.dropWhile (fun c => c != ':') with
  | ':' :: ds => if !ds.isEmpty && ds.all Char.isDigit then some (digitsToNat ds) else none
  | _ => none

/-! ### `src/client.rs` -/

/-- `Error` from the crate's error module, as used by `src/client.rs`
(the spec names the kinds `InvalidBaseAddress`, `InvalidRequestPath`,
`TransportFailure`, `UnsuccessfulHttpStatus`, `MalformedBody`,
`DomainFailure` respectively).  `IncorrectBaseUrl` keeps the offending
string as its parse-failure detail; `BadStatus` keeps the HTTP status. -/
inductive Error where
  | IncorrectBaseUrl (s : String)
  | IncorrectApiUrl (s : String)
  | RequestFailed
  | BadStatus (status : Nat)
  | BadBody
  | GstdError (code : ResponseCode)
deriving DecidableEq, Repr

/-- `GstClient` from `src/client.rs`.  The `http_client : reqwest::Client`
field is the external HTTP transport capability and carries no state
observable by this development, so only `base_url` is embedded. -/
structure GstClient where
  base_url : Url
deriving DecidableEq

/-- `GstClient::build`: parse the textual base address eagerly, failing
with `Error::IncorrectBaseUrl` (spec: `InvalidBaseAddress`) when it is
not a well-formed URL.  Pure: no network activity is involved. -/
def GstClient.build (base_url : String) : Except Error GstClient :=
  match Url.parse base_url with
  | some u => .ok ⟨u⟩
  | none => .error (.IncorrectBaseUrl base_url)

/-- `impl Default for GstClient`: the named default configuration,
pointing at `http://127.0.0.1:5000` (localhost, port 5000). -/
def GstClient.default : GstClient :=
  ⟨⟨"http://127.0.0.1:5000", by decide⟩⟩

/-- `impl From<Url> for GstClient` (and `From<&Url>`, identical up to the
clone): adopt an already-parsed URL verbatim, infallibly. -/
def GstClient.fromUrl (url : Url) : GstClient :=
  ⟨url⟩

/-- A raw HTTP response as seen by `process_resp`: the status code, and
the body as JSON when the body text parses as JSON (`none` models a body
that is not valid JSON, on which `reqwest::Response::json` fails). -/
structure HttpResp where
  status : Nat
  body : Option Json

/-- `StatusCode::is_success` from the HTTP layer: the success class
`200..=299`. -/
def isSuccessStatus (st : Nat) : Bool :=
  200 ≤ st && st < 300

/-- `GstClient::process_resp` from `src/client.rs`: reject non-success
HTTP statuses with `BadStatus` before touching the body; then decode the
body as a `Response` envelope, failing with `BadBody`; then reject
envelopes whose `code` is not `Success` with `GstdError(code)`;
otherwise return the envelope. -/
def GstClient.process_resp (_c : GstClient) (resp : HttpResp) :
    Except Error Response :=
  if !isSuccessStatus resp.status then
    .error (.BadStatus resp.status)
  else
    match resp.body.bind decodeResponse with
    | none => .error .BadBody
    | some res =>
      if res.code ≠ ResponseCode.Success then .error (.GstdError res.code)
      else .ok res

/-- The JSON envelope `{"code": c, "description": d, "response": r}`,
used to build concrete wire bodies in the theorems below. -/
def mkEnvelope (c : Json) (d : String) (r : Json) : Json :=
  .obj [("code", c), ("description", .str d), ("response", r)]

/-- A payload object that matches both the `Bus` shape and the
`Properties` shape, exercising the untagged variant order. -/
def busAndPropertiesJson : Json :=
  .obj [("type", .str "error"), ("source", .str "src"), ("timestamp", .str "t0"),
        ("seqnum", .num 1), ("message", .str "msg"), ("debug", .str "dbg"),
        ("properties", .arr [])]

/-! ### Claims -/

/-- C1: decoding the payload of a successfully parsed 200-status envelope
attempts the variants in the fixed order `Bus` (including the `null`
sub-case), then `Properties`, then `Property`, accepting the first
structural match; when no variant matches, processing the response fails
with the `MalformedBody` (`BadBody`) error kind. -/
theorem decodeResponseT_variant_order (d : String) (j : Json) :
    (∀ b, decodeOptionBus j = some b → decodeResponseT j = some (ResponseT.bus b))
    ∧ (decodeOptionBus j = none → ∀ ps, decodeProperties j = some ps →
        decodeResponseT j = some (ResponseT.properties ps))
    ∧ (decodeOptionBus j = none → decodeProperties j = none →
        ∀ p, decodeProperty j = some p →
        decodeResponseT j = some (ResponseT.property p))
    ∧ (decodeOptionBus j = none → decodeProperties j = none →
        decodeProperty j = none → ∀ c : GstClient,
        c.process_resp ⟨200, some (mkEnvelope (.num 0) d j)⟩ = .error .BadBody) := by
  refine ⟨fun b hb => ?_, fun hb ps hp => ?_, fun hb hp p hq => ?_, fun hb hp hq c => ?_⟩
  · simp [decodeResponseT, hb]
  · simp [decodeResponseT, hb, hp]
  · simp [decodeResponseT, hb, hp, hq]
  · have hT : decodeResponseT j = none := by simp [decodeResponseT, hb, hp, hq]
    simp [GstClient.process_resp, isSuccessStatus, decodeResponse, mkEnvelope,
      jsonLookup, decodeResponseCode, ResponseCode.ofNat?, decodeString, hT]

/-- Witness for C1: an object carrying both a full `Bus` shape and a
`Properties` shape decodes as `Bus` (the earlier variant), and a payload
matching no variant makes processing fail with `BadBody`. -/
theorem decodeResponseT_variant_order_witness :
    decodeResponseT busAndPropertiesJson
      = some (ResponseT.bus (some ⟨"error", "src", "t0", 1, "msg", "dbg"⟩))
    ∧ decodeProperties busAndPropertiesJson = some ⟨[], []⟩
    ∧ GstClient.default.process_resp
        ⟨200, some (mkEnvelope (.num 0) "Success" (.bool true))⟩ = .error .BadBody :=
  ⟨(decodeResponseT_variant_order "Success" busAndPropertiesJson).1
      (some ⟨"error", "src", "t0", 1, "msg", "dbg"⟩) rfl,
   rfl,
   (decodeResponseT_variant_order "Success" (.bool true)).2.2.2 rfl rfl rfl
      GstClient.default⟩

/-- C2: a non-success-class HTTP status makes `process_resp` fail with
`UnsuccessfulHttpStatus` (`BadStatus`) carrying that status, for every
body whatsoever — the body is never parsed. -/
theorem process_resp_non_2xx (c : GstClient) (st : Nat) (body : Option Json)
    (h : isSuccessStatus st = false) :
    c.process_resp ⟨st, body⟩ = .error (.BadStatus st) := by
  simp [GstClient.process_resp, h]

/-- Witness for C2: a 404 response fails with `BadStatus 404` even though
its body is a valid, domain-successful envelope. -/
theorem process_resp_non_2xx_witness :
    GstClient.default.process_resp
        ⟨404, some (mkEnvelope (.num 0) "Success" .null)⟩ = .error (.BadStatus 404)
    ∧ decodeResponse (mkEnvelope (.num 0) "Success" .null)
        = some ⟨.Success, "Success", .bus none⟩ :=
  ⟨process_resp_non_2xx GstClient.default 404
      (some (mkEnvelope (.num 0) "Success" .null)) rfl, rfl⟩

/-- C3: on a success-class status with a body decoding to an envelope,
a non-`Success` code makes `process_resp` fail with `DomainFailure`
(`GstdError`) carrying exactly that code, whatever the payload; a
`Success` code makes it return the decoded envelope. -/
theorem process_resp_domain_code (c : GstClient) (resp : HttpResp) (res : Response)
    (h2xx : isSuccessStatus resp.status = true)
    (hdec : resp.body.bind decodeResponse = some res) :
    (res.code ≠ ResponseCode.Success →
      c.process_resp resp = .error (.GstdError res.code))
    ∧ (res.code = ResponseCode.Success → c.process_resp resp = .ok res) := by
  constructor <;> intro h <;> simp [GstClient.process_resp, h2xx, hdec, h]

/-- Witness for C3: a 200 envelope with code 3 (`ExistingName`) and a
structurally valid `Properties` payload fails with
`GstdError ExistingName`; the same payload under code 0 is returned. -/
theorem process_resp_domain_code_witness :
    GstClient.default.process_resp
        ⟨200, some (mkEnvelope (.num 3) "existing-name" (.obj [("properties", .arr [])]))⟩
        = .error (.GstdError .ExistingName)
    ∧ GstClient.default.process_resp
        ⟨200, some (mkEnvelope (.num 0) "Success" (.obj [("properties", .arr [])]))⟩
        = .ok ⟨.Success, "Success", .properties ⟨[], []⟩⟩ :=
  ⟨(process_resp_domain_code GstClient.default
      ⟨200, some (mkEnvelope (.num 3) "existing-name" (.obj [("properties", .arr [])]))⟩
      ⟨.ExistingName, "existing-name", .properties ⟨[], []⟩⟩ rfl rfl).1 (by decide),
   (process_resp_domain_code GstClient.default
      ⟨200, some (mkEnvelope (.num 0) "Success" (.obj [("properties", .arr [])]))⟩
      ⟨.Success, "Success", .properties ⟨[], []⟩⟩ rfl rfl).2 rfl⟩

/-- C4: a loosely-typed property value is decoded by trying the shapes
string, integer, boolean in turn; in particular a JSON boolean value
decodes to the boolean variant (never string or integer), also through a
full `Property` decode. -/
theorem decodePropertyValue_shapes :
    (∀ s, decodePropertyValue (.str s) = some (.string s))
    ∧ (∀ n : Int, -(2 ^ 63) ≤ n → n < 2 ^ 63 →
        decodePropertyValue (.num n) = some (.integer n))
    ∧ (∀ b, decodePropertyValue (.bool b) = some (.bool b))
    ∧ (∀ (nm ds ty ac : String) (b : Bool),
        decodeProperty (.obj [("name", .str nm), ("value", .bool b),
          ("param", .obj [("description", .str ds), ("type", .str ty),
                          ("access", .str ac)])])
          = some ⟨nm, .bool b, ⟨ds, ty, ac⟩⟩) := by
  refine ⟨fun s => rfl, fun n h1 h2 => ?_, fun b => rfl, fun nm ds ty ac b => rfl⟩
  have h3 : decodeI64 (.num n) = some n := by
    norm_num at h1 h2
    simp [decodeI64, h1, h2]
  simp [decodePropertyValue, decodeString, h3]

/-- Witness for C4: the boolean fixture value `true` decodes to the
boolean variant, and the integer `42` to the integer variant. -/
theorem decodePropertyValue_shapes_witness :
    decodePropertyValue (.bool true) = some (.bool true)
    ∧ decodePropertyValue (.num 42) = some (.integer 42) :=
  ⟨decodePropertyValue_shapes.2.2.1 true,
   decodePropertyValue_shapes.2.1 42 (by decide) (by decide)⟩

/-- C5: a 200 envelope with code `Success` and a `Properties` payload
whose `nodes` field is absent, or is the empty list, decodes to a
`Properties` payload with an empty node list. -/
theorem properties_nodes_default (c : GstClient) (d : String)
    (ps : List Json) (props : List Property)
    (hps : decodeList decodeProperty ps = some props) :
    c.process_resp
        ⟨200, some (mkEnvelope (.num 0) d (.obj [("properties", .arr ps)]))⟩
      = .ok ⟨.Success, d, .properties ⟨props, []⟩⟩
    ∧ c.process_resp
        ⟨200, some (mkEnvelope (.num 0) d
          (.obj [("properties", .arr ps), ("nodes", .arr [])]))⟩
      = .ok ⟨.Success, d, .properties ⟨props, []⟩⟩ := by
  constructor <;>
    simp [GstClient.process_resp, isSuccessStatus, decodeResponse, mkEnvelope,
      jsonLookup, decodeResponseCode, ResponseCode.ofNat?, decodeString,
      decodeResponseT, decodeOptionBus, decodeBus, decodeProperties,
      decodeArray, decodeList, decodeNode, hps]

/-- Witness for C5: the empty `properties` list with `nodes` absent and
with `nodes = []` both decode to the empty node list. -/
theorem properties_nodes_default_witness :
    GstClient.default.process_resp
        ⟨200, some (mkEnvelope (.num 0) "Success" (.obj [("properties", .arr [])]))⟩
      = .ok ⟨.Success, "Success", .properties ⟨[], []⟩⟩
    ∧ GstClient.default.process_resp
        ⟨200, some (mkEnvelope (.num 0) "Success"
          (.obj [("properties", .arr []), ("nodes", .arr [])]))⟩
      = .ok ⟨.Success, "Success", .properties ⟨[], []⟩⟩ :=
  properties_nodes_default GstClient.default "Success" [] [] rfl

/-- C6: for every base-address string that parses as a well-formed URL,
`GstClient::build` succeeds, stores exactly the parsed URL, and the
stored URL round-trips — rendering it and parsing again yields the same
URL. -/
theorem build_roundtrip (s : String) (u : Url) (h : Url.parse s = some u) :
    GstClient.build s = .ok ⟨u⟩ ∧ Url.parse (Url.render u) = some u := by
  have hw : wellFormedUrl s = true := by
    by_contra hw
    simp [Url.parse, hw] at h
  have hu : u = ⟨s, hw⟩ := by
    simp only [Url.parse, dif_pos hw, Option.some.injEq] at h
    exact h.symm
  subst hu
  exact ⟨by simp [GstClient.build, Url.parse, hw],
         by simp [Url.parse, Url.render, hw]⟩

/-- Witness for C6: the default base address string builds successfully
and its stored URL round-trips. -/
theorem build_roundtrip_witness :
    GstClient.build "http://127.0.0.1:5000"
      = .ok ⟨⟨"http://127.0.0.1:5000", by decide⟩⟩
    ∧ Url.parse (Url.render ⟨"http://127.0.0.1:5000", by decide⟩)
      = some ⟨"http://127.0.0.1:5000", by decide⟩ :=
  build_roundtrip "http://127.0.0.1:5000" ⟨"http://127.0.0.1:5000", by decide⟩ rfl

/-- C7: for every base-address string that is not a well-formed URL,
`GstClient::build` fails eagerly with `InvalidBaseAddress`
(`IncorrectBaseUrl`); `build` is a pure constructor, so no network
activity is involved. -/
theorem build_invalid (s : String) (h : wellFormedUrl s = false) :
    GstClient.build s = .error (.IncorrectBaseUrl s) := by
  simp [GstClient.build, Url.parse, h]

/-- Witness for C7: a base address missing its scheme is rejected at
construction. -/
theorem build_invalid_witness :
    GstClient.build "127.0.0.1:5000" = .error (.IncorrectBaseUrl "127.0.0.1:5000") :=
  build_invalid "127.0.0.1:5000" rfl

/-- C8: the default-constructed client is an explicit named default
configuration whose base address is `http://127.0.0.1:5000`, i.e. host
localhost (`127.0.0.1`) and port 5000. -/
theorem default_client_localhost_5000 :
    GstClient.default.base_url.host = "127.0.0.1"
    ∧ GstClient.default.base_url.port = some 5000
    ∧ Url.render GstClient.default.base_url = "http://127.0.0.1:5000" :=
  ⟨rfl, rfl, rfl⟩

/-- C9: the body-shape check precedes the domain-code check: on a
success-class status, a body object lacking a well-formed `description`
or `response` (payload) field fails with `MalformedBody` (`BadBody`),
whatever its `code` field holds. -/
theorem process_resp_malformed_precedes_code (c : GstClient) (st : Nat)
    (fields : List (String × Json)) (h2xx : isSuccessStatus st = true)
    (hmiss : (jsonLookup "description" fields).bind decodeString = none
           ∨ (jsonLookup "response" fields).bind decodeResponseT = none) :
    c.process_resp ⟨st, some (.obj fields)⟩ = .error .BadBody := by
  have hunf : decodeResponse (.obj fields) =
      ((jsonLookup "code" fields).bind decodeResponseCode).bind (fun c =>
        ((jsonLookup "description" fields).bind decodeString).bind (fun d =>
          ((jsonLookup "response" fields).bind decodeResponseT).bind (fun r =>
            some ⟨c, d, r⟩))) := rfl
  have hdec : decodeResponse (.obj fields) = none := by
    rw [hunf]
    rcases hmiss with h | h
    · cases (jsonLookup "code" fields).bind decodeResponseCode <;> simp [h]
    · cases (jsonLookup "code" fields).bind decodeResponseCode <;>
        cases (jsonLookup "description" fields).bind decodeString <;> simp [h]
  simp [GstClient.process_resp, h2xx, hdec]

/-- Witness for C9: a 200 body whose `code` is the non-success value 3
but which lacks `description` and `response` fields fails with
`BadBody`, not `GstdError`. -/
theorem process_resp_malformed_precedes_code_witness :
    GstClient.default.process_resp ⟨200, some (.obj [("code", .num 3)])⟩
      = .error .BadBody
    ∧ decodeResponseCode (.num 3) = some .ExistingName :=
  ⟨process_resp_malformed_precedes_code GstClient.default 200 [("code", .num 3)]
      rfl (Or.inl rfl), rfl⟩

/-- C10: constructing a client from an already-parsed URL is infallible
and preserves the URL exactly: the stored base address is the given URL,
unchanged. -/
theorem fromUrl_preserves (u : Url) :
    (GstClient.fromUrl u).base_url = u ∧ GstClient.fromUrl u = ⟨u⟩ :=
  ⟨rfl, rfl⟩
